import Mathlib

/-!
A shallow embedding of the bidirectional-streaming interaction pattern of a
transport-agnostic RPC layer (`src/pattern/bidi_streaming.rs`), together with
models of the shared server plumbing it uses (`UpdateStream`, `race2`,
`RpcServerError`), and proofs of the behavioural properties stated in the
design document.

Modelling decisions:
* Streams are finite lists of already-received items; a raw incoming stream is
  a `List (Except RecvErr v)` where an `Except.error` element is a transport
  receive failure.
* The outgoing sink is modelled by a function `sendErr : Nat → Option SendErr`
  giving the outcome of the i-th send attempt, plus a trace of the wire values
  successfully sent.
* The race between the update-stream error watch and the response-sending loop
  is resolved on an abstract clock counting completed send attempts: the watch
  fires after `errFireAt` send attempts have completed and wins the race
  exactly when the loop has not yet terminated by then.
-/

universe u

section Model

variable {Req Res Update Response M : Type} {OpenErr SendErr RecvErr : Type}

/-- Modelled from the spec: the server-side error type `RpcServerError`
(declared in the repository's server module, which is not among the given
sources). Per the spec's error taxonomy it distinguishes a send failure
(carrying the transport send error), a receive failure (carrying the transport
receive error), and the distinct "unexpected message" downcast failure of the
server update path. -/
inductive RpcServerError (SendErr RecvErr : Type) where
  /-- A write to the established substream failed. -/
  | SendError : SendErr → RpcServerError SendErr RecvErr
  /-- A read from the established substream failed at the transport level. -/
  | RecvError : RecvErr → RpcServerError SendErr RecvErr
  /-- A value was received but did not convert to the expected update type. -/
  | UnexpectedUpdateMessage : RpcServerError SendErr RecvErr
  deriving DecidableEq

/-- The two kinds the server update path's one-shot error signal can carry: a
transport receive failure (propagated unchanged) or the distinct
unexpected-message downcast failure. -/
inductive UpdateSigErr (RecvErr : Type) where
  /-- The raw incoming stream itself failed. -/
  | RecvError : RecvErr → UpdateSigErr RecvErr
  /-- A raw element failed typed conversion to the update type. -/
  | UnexpectedUpdateMessage : UpdateSigErr RecvErr
  deriving DecidableEq

/-- The injection of the update path's one-shot signal into the server error
type (in the repository the signal already carries the server error type; the
two-step presentation here is observationally the same). -/
def UpdateSigErr.toServerError {SendErr RecvErr : Type} :
    UpdateSigErr RecvErr → RpcServerError SendErr RecvErr
  | .RecvError e => .RecvError e
  | .UnexpectedUpdateMessage => .UnexpectedUpdateMessage

/-- Modelled from the spec: `UpdateStream::new` (server module, not among the
given sources). It splits a raw incoming stream into (1) the sequence of
successfully-typed updates and (2) a one-shot error signal that fires on the
first transport receive failure (propagating it) or the first conversion
failure (as the distinct unexpected-message kind), and never fires when the
raw stream ends cleanly with every element converting. -/
def updateStreamSplit (tryFromUpd : Req → Option Update) :
    List (Except RecvErr Req) → List Update × Option (UpdateSigErr RecvErr)
  | [] => ([], none)
  | .error e :: _ => ([], some (.RecvError e))
  | .ok r :: rest =>
    match tryFromUpd r with
    | none => ([], some .UnexpectedUpdateMessage)
    | some u =>
      let s := updateStreamSplit tryFromUpd rest
      (u :: s.1, s.2)

/-- The response-sending loop of the server half (`bidi_streaming`, the
`while let` body): take each response element in order, convert it to the wire
response type and send it, stopping with the transport's send error on the
first failed send. Returns the trace of wire values successfully sent, the
number of send attempts performed, and the loop's result. `i` is the index of
the next send attempt. -/
def sendLoopAux (respIntoRes : Response → Res) (sendErr : Nat → Option SendErr) :
    Nat → List Response → List Res × Nat × Except SendErr Unit
  | _, [] => ([], 0, .ok ())
  | i, r :: rest =>
    match sendErr i with
    | some e => ([], 1, .error e)
    | none =>
      let s := sendLoopAux respIntoRes sendErr (i + 1) rest
      (respIntoRes r :: s.1, s.2.1 + 1, s.2.2)

/-- The server half of a bidirectional-streaming call (`bidi_streaming`):
split the raw incoming stream into typed updates plus a one-shot error watch,
hand the updates to the handler to obtain the response sequence, then race the
error watch (mapped to a failure) against the response-sending loop. The race
is modelled on the send-attempt clock: when the watch carries an error it
fires after `errFireAt` completed send attempts and wins exactly when the loop
has not finished by then (`race2` itself is modelled from the spec: first
branch to produce a value determines the overall result, the other is
abandoned). Returns the trace of wire values sent and the call's result. -/
def bidi_streaming (tryFromUpd : Req → Option Update) (respIntoRes : Response → Res)
    (handler : List Update → List Response)
    (raws : List (Except RecvErr Req)) (sendErr : Nat → Option SendErr)
    (errFireAt : Nat) :
    List Res × Except (RpcServerError SendErr RecvErr) Unit :=
  let us := updateStreamSplit tryFromUpd raws
  let responses := handler us.1
  let loop := sendLoopAux respIntoRes sendErr 0 responses
  let loopResult : Except (RpcServerError SendErr RecvErr) Unit :=
    match loop.2.2 with
    | .ok () => .ok ()
    | .error e => .error (.SendError e)
  match us.2 with
  | none => (loop.1, loopResult)
  | some e =>
    if errFireAt < loop.2.1 then
      ((responses.take errFireAt).map respIntoRes, .error e.toServerError)
    else
      (loop.1, loopResult)

/-- Client error when initiating a bidi request (source `Error<C>`): either
the substream could not be opened at all, or the initial request could not be
sent. -/
inductive Error (OpenErr SendErr : Type) where
  /-- Unable to open a substream at all. -/
  | Open : OpenErr → Error OpenErr SendErr
  /-- Unable to send the request to the server. -/
  | Send : SendErr → Error OpenErr SendErr
  deriving DecidableEq

/-- Client error for one element of the response sequence (source
`ItemError<C>`): a transport receive failure carrying the transport's error,
or a payload-free downcast failure. -/
inductive ItemError (RecvErr : Type) where
  /-- Unable to receive the response from the server. -/
  | RecvError : RecvErr → ItemError RecvErr
  /-- Unexpected response from the server. -/
  | DowncastError : ItemError RecvErr
  deriving DecidableEq

/-- The per-element conversion the client applies to the incoming half of the
substream (the closure in `bidi`): a received wire value is fallibly converted
to the typed response, a conversion failure becoming a `DowncastError`
element, and a transport receive failure becoming a `RecvError` element. -/
def mapItem (respTryFrom : Res → Option Response) :
    Except RecvErr Res → Except (ItemError RecvErr) Response
  | .ok m =>
    match respTryFrom m with
    | some r => .ok r
    | none => .error .DowncastError
  | .error e => .error (.RecvError e)

/-- The client half of a bidirectional-streaming call (`bidi`): convert the
request to the wire type, open a substream (failure is returned as the `Open`
error with no send attempted), send the converted request (failure is returned
as the `Send` error), and on success return the response sequence with each
element converted by `mapItem`. The first component is the trace of wire
values whose send was attempted; `openResult` carries the incoming half of the
substream when the open succeeds, and `sendOutcome` is the outcome of the
initial send. -/
def bidi (msgIntoReq : M → Req) (respTryFrom : Res → Option Response)
    (msg : M)
    (openResult : Except OpenErr (List (Except RecvErr Res)))
    (sendOutcome : Option SendErr) :
    List Req ×
      Except (Error OpenErr SendErr) (List (Except (ItemError RecvErr) Response)) :=
  match openResult with
  | .error e => ([], .error (.Open e))
  | .ok recv =>
    match sendOutcome with
    | some e => ([msgIntoReq msg], .error (.Send e))
    | none => ([msgIntoReq msg], .ok (recv.map (mapItem respTryFrom)))

end Model

section TestService

/-- Modelled from the spec: the client-to-server message-set type of a sample
service — a closed sum with one variant per concrete message type, as the
concrete service enums are not among the given sources. -/
inductive TestReq where
  | start : Nat → TestReq
  | upd : Nat → TestReq
  | other : Bool → TestReq
  deriving DecidableEq

/-- Modelled from the spec: the server-to-client message-set type of the same
sample service. -/
inductive TestRes where
  | pong : Nat → TestRes
  | status : Bool → TestRes
  deriving DecidableEq

/-- A concrete update type of the sample service. -/
structure CounterUpdate where
  value : Nat
  deriving DecidableEq

/-- Lossless conversion of an update into the wire request set. -/
def counterUpdateIntoReq (u : CounterUpdate) : TestReq := .upd u.value

/-- Fallible recovery of an update from the wire request set. -/
def counterUpdateTryFrom : TestReq → Option CounterUpdate
  | .upd n => some ⟨n⟩
  | _ => none

/-- A concrete response type of the sample service. -/
structure CounterResponse where
  current : Nat
  deriving DecidableEq

/-- Lossless conversion of a response into the wire response set. -/
def counterResponseIntoRes (r : CounterResponse) : TestRes := .pong r.current

/-- Fallible recovery of a response from the wire response set. -/
def counterResponseTryFrom : TestRes → Option CounterResponse
  | .pong n => some ⟨n⟩
  | _ => none

/-- The request message type of the sample bidi call. -/
structure StartMsg where
  n : Nat
  deriving DecidableEq

/-- Conversion of the request message into the wire request set. -/
def startIntoReq (m : StartMsg) : TestReq := .start m.n

/-- Modelled from the spec: the update conversion of a degenerate message type
that reuses the request type itself as its `Update` type — per the spec any
attempted update conversion at runtime fails (the concrete `TryFrom` instances
are not among the given sources). -/
def degenUpdateTryFrom : TestReq → Option StartMsg := fun _ => none

/-- Modelled from the spec: the response conversion of the same degenerate
configuration on the response side — any attempted response conversion at
runtime fails. -/
def degenResponseTryFrom : TestRes → Option StartMsg := fun _ => none

end TestService

section ModelAux

variable {Req Res Update Response M : Type} {OpenErr SendErr RecvErr : Type}

/-- The conversion `updateStreamSplit` applies to one raw element that is not
a receive failure: the fallible update recovery, with receive failures mapped
to `none`. Used to state which typed updates a good prefix contributes. -/
def okConv (tryFromUpd : Req → Option Update) :
    Except RecvErr Req → Option Update
  | .ok q => tryFromUpd q
  | .error _ => none

/-- The result of the send loop, wrapped into the server error type exactly as
`bidi_streaming` does on the loop branch of the race. -/
def loopWrap {SendErr RecvErr : Type} (x : Except SendErr Unit) :
    Except (RpcServerError SendErr RecvErr) Unit :=
  match x with
  | .ok () => .ok ()
  | .error e => .error (.SendError e)

end ModelAux

section Lemmas

variable {Req Res Update Response M : Type} {OpenErr SendErr RecvErr : Type}

theorem sendLoopAux_all_ok (ri : Response → Res) (se : Nat → Option SendErr) :
    ∀ (rs : List Response) (i : Nat), (∀ j < rs.length, se (i + j) = none) →
      sendLoopAux ri se i rs = (rs.map ri, rs.length, .ok ())
  | [], _, _ => rfl
  | r :: rest, i, h => by
    have h0 : se i = none := by simpa using h 0 (Nat.succ_pos _)
    have hrec := sendLoopAux_all_ok ri se rest (i + 1)
      (fun j hj => by
        have := h (j + 1) (by simpa using Nat.succ_lt_succ hj)
        simpa [Nat.add_assoc, Nat.add_comm 1 j] using this)
    simp [sendLoopAux, h0, hrec]

theorem sendLoopAux_first_fail (ri : Response → Res) (se : Nat → Option SendErr) :
    ∀ (rs : List Response) (i k : Nat) (e : SendErr), k < rs.length →
      (∀ j < k, se (i + j) = none) → se (i + k) = some e →
      sendLoopAux ri se i rs = ((rs.take k).map ri, k + 1, .error e)
  | [], _, k, _, hk, _, _ => absurd hk (by simp)
  | r :: rest, i, 0, e, _, _, hfail => by
    simp only [Nat.add_zero] at hfail
    simp [sendLoopAux, hfail]
  | r :: rest, i, k + 1, e, hk, hok, hfail => by
    have h0 : se i = none := by simpa using hok 0 (Nat.succ_pos _)
    have hrec := sendLoopAux_first_fail ri se rest (i + 1) k e
      (by simpa using Nat.lt_of_succ_lt_succ hk)
      (fun j hj => by
        have := hok (j + 1) (Nat.succ_lt_succ hj)
        simpa [Nat.add_assoc, Nat.add_comm 1 j] using this)
      (by simpa [Nat.add_assoc, Nat.add_comm 1 k] using hfail)
    simp [sendLoopAux, h0, hrec]

theorem sendLoopAux_ok_iff (ri : Response → Res) (se : Nat → Option SendErr) :
    ∀ (rs : List Response) (i : Nat),
      (sendLoopAux ri se i rs).2.2 = .ok () ↔ ∀ j < rs.length, se (i + j) = none
  | [], i => by simp [sendLoopAux]
  | r :: rest, i => by
    cases h0 : se i with
    | some e =>
      simp only [sendLoopAux, h0]
      constructor
      · intro h; cases h
      · intro h
        have := h 0 (Nat.succ_pos _)
        simp [h0] at this
    | none =>
      simp only [sendLoopAux, h0]
      rw [sendLoopAux_ok_iff ri se rest (i + 1)]
      constructor
      · intro h j hj
        match j with
        | 0 => simpa using h0
        | j + 1 =>
          have := h j (Nat.lt_of_succ_lt_succ hj)
          simpa [Nat.add_assoc, Nat.add_comm 1 j] using this
      · intro h j hj
        have := h (j + 1) (Nat.succ_lt_succ hj)
        simpa [Nat.add_assoc, Nat.add_comm 1 j] using this

theorem updateStreamSplit_clean (tf : Req → Option Update) :
    ∀ raws : List (Except RecvErr Req),
      (∀ x ∈ raws, ∃ q, x = .ok q ∧ (tf q).isSome) →
      updateStreamSplit tf raws = (raws.filterMap (okConv tf), none)
  | [], _ => rfl
  | x :: rest, h => by
    obtain ⟨q, rfl, hq⟩ := h x (List.mem_cons_self x rest)
    obtain ⟨u, hu⟩ := Option.isSome_iff_exists.mp hq
    have hrec := updateStreamSplit_clean tf rest
      (fun y hy => h y (List.mem_cons_of_mem _ hy))
    simp [updateStreamSplit, okConv, hu, hrec]

theorem updateStreamSplit_unexpected (tf : Req → Option Update) :
    ∀ (pre : List (Except RecvErr Req)) (r : Req) (post : List (Except RecvErr Req)),
      (∀ x ∈ pre, ∃ q, x = .ok q ∧ (tf q).isSome) → tf r = none →
      updateStreamSplit tf (pre ++ .ok r :: post) =
        (pre.filterMap (okConv tf), some .UnexpectedUpdateMessage)
  | [], r, post, _, hr => by simp [updateStreamSplit, hr]
  | x :: pre, r, post, h, hr => by
    obtain ⟨q, rfl, hq⟩ := h x (List.mem_cons_self x pre)
    obtain ⟨u, hu⟩ := Option.isSome_iff_exists.mp hq
    have hrec := updateStreamSplit_unexpected tf pre r post
      (fun y hy => h y (List.mem_cons_of_mem _ hy)) hr
    simp [updateStreamSplit, okConv, hu, hrec]

theorem bidi_streaming_sig_none (tf : Req → Option Update) (ri : Response → Res)
    (handler : List Update → List Response) (raws : List (Except RecvErr Req))
    (se : Nat → Option SendErr) (t : Nat)
    (h : (updateStreamSplit tf raws).2 = none) :
    bidi_streaming tf ri handler raws se t =
      ((sendLoopAux ri se 0 (handler (updateStreamSplit tf raws).1)).1,
       loopWrap (sendLoopAux ri se 0 (handler (updateStreamSplit tf raws).1)).2.2) := by
  simp only [bidi_streaming, h, loopWrap]

theorem bidi_streaming_sig_some_win (tf : Req → Option Update) (ri : Response → Res)
    (handler : List Update → List Response) (raws : List (Except RecvErr Req))
    (se : Nat → Option SendErr) (t : Nat) (e : UpdateSigErr RecvErr)
    (h : (updateStreamSplit tf raws).2 = some e)
    (hw : t < (sendLoopAux ri se 0 (handler (updateStreamSplit tf raws).1)).2.1) :
    bidi_streaming tf ri handler raws se t =
      (((handler (updateStreamSplit tf raws).1).take t).map ri,
        .error e.toServerError) := by
  simp only [bidi_streaming, h]
  rw [if_pos hw]

theorem bidi_streaming_sig_some_lose (tf : Req → Option Update) (ri : Response → Res)
    (handler : List Update → List Response) (raws : List (Except RecvErr Req))
    (se : Nat → Option SendErr) (t : Nat) (e : UpdateSigErr RecvErr)
    (h : (updateStreamSplit tf raws).2 = some e)
    (hw : (sendLoopAux ri se 0 (handler (updateStreamSplit tf raws).1)).2.1 ≤ t) :
    bidi_streaming tf ri handler raws se t =
      ((sendLoopAux ri se 0 (handler (updateStreamSplit tf raws).1)).1,
       loopWrap (sendLoopAux ri se 0 (handler (updateStreamSplit tf raws).1)).2.2) := by
  simp only [bidi_streaming, h, loopWrap]
  rw [if_neg (Nat.not_lt.mpr hw)]

theorem loopWrap_ok_iff {SendErr RecvErr : Type} (x : Except SendErr Unit) :
    (loopWrap x : Except (RpcServerError SendErr RecvErr) Unit) = .ok () ↔
      x = .ok () := by
  cases x with
  | ok u => cases u; simp [loopWrap]
  | error e => simp [loopWrap]

end Lemmas

section ServerClaims

variable {Req Res Update Response : Type} {SendErr RecvErr : Type}

/-- Claim C1: for every server-side `bidi_streaming` call, the overall result
is success exactly when the handler's response sequence is exhausted with
every send succeeding and the update-stream error watch has not fired first;
it is a failure as soon as either a send fails or the error watch fires,
whichever of the two happens first — in particular, when the watch fires
while responses are still being sent, the call reports the update-stream
failure (and stops sending at the first unsent response), not a send
failure. -/
theorem C1_server_result_first_failure_wins
    (tf : Req → Option Update) (ri : Response → Res)
    (handler : List Update → List Response) (raws : List (Except RecvErr Req))
    (se : Nat → Option SendErr) (t : Nat) :
    ((bidi_streaming tf ri handler raws se t).2 = .ok () ↔
      ((∀ j < (handler (updateStreamSplit tf raws).1).length, se j = none) ∧
        ∀ e : UpdateSigErr RecvErr, (updateStreamSplit tf raws).2 = some e →
          (handler (updateStreamSplit tf raws).1).length ≤ t)) ∧
    (∀ e, (updateStreamSplit tf raws).2 = some e →
      t < (sendLoopAux ri se 0 (handler (updateStreamSplit tf raws).1)).2.1 →
      (bidi_streaming tf ri handler raws se t).2 = .error e.toServerError ∧
      (bidi_streaming tf ri handler raws se t).1 =
        ((handler (updateStreamSplit tf raws).1).take t).map ri) ∧
    (∀ (k : Nat) (f : SendErr),
      k < (handler (updateStreamSplit tf raws).1).length →
      (∀ j < k, se j = none) → se k = some f →
      (∀ e, (updateStreamSplit tf raws).2 = some e → k + 1 ≤ t) →
      (bidi_streaming tf ri handler raws se t).2 = .error (.SendError f)) := by
  refine ⟨?_, ?_, ?_⟩
  · constructor
    · intro hok
      cases hsig : (updateStreamSplit tf raws).2 with
      | none =>
        rw [bidi_streaming_sig_none tf ri handler raws se t hsig] at hok
        simp only [loopWrap_ok_iff] at hok
        have := (sendLoopAux_ok_iff ri se (handler (updateStreamSplit tf raws).1) 0).mp hok
        exact ⟨fun j hj => by simpa using this j hj, fun e he => by simp at he⟩
      | some e =>
        by_cases hw : t < (sendLoopAux ri se 0 (handler (updateStreamSplit tf raws).1)).2.1
        · rw [bidi_streaming_sig_some_win tf ri handler raws se t e hsig hw] at hok
          cases hok
        · have hle := Nat.not_lt.mp hw
          rw [bidi_streaming_sig_some_lose tf ri handler raws se t e hsig hle] at hok
          simp only [loopWrap_ok_iff] at hok
          have hall := (sendLoopAux_ok_iff ri se (handler (updateStreamSplit tf raws).1) 0).mp hok
          have hall0 : ∀ j < (handler (updateStreamSplit tf raws).1).length, se j = none :=
            fun j hj => by simpa using hall j hj
          refine ⟨hall0, fun e2 _ => ?_⟩
          have heq := sendLoopAux_all_ok ri se (handler (updateStreamSplit tf raws).1) 0
            (fun j hj => by simpa using hall0 j hj)
          rw [heq] at hle
          exact hle
    · rintro ⟨hall, hlate⟩
      have heq := sendLoopAux_all_ok ri se (handler (updateStreamSplit tf raws).1) 0
        (fun j hj => by simpa using hall j hj)
      cases hsig : (updateStreamSplit tf raws).2 with
      | none =>
        rw [bidi_streaming_sig_none tf ri handler raws se t hsig, heq]
        rfl
      | some e =>
        have hle : (sendLoopAux ri se 0 (handler (updateStreamSplit tf raws).1)).2.1 ≤ t := by
          rw [heq]
          exact hlate e hsig
        rw [bidi_streaming_sig_some_lose tf ri handler raws se t e hsig hle, heq]
        rfl
  · intro e hsig hw
    rw [bidi_streaming_sig_some_win tf ri handler raws se t e hsig hw]
    exact ⟨rfl, rfl⟩
  · intro k f hk hok hfail hlate
    have heq := sendLoopAux_first_fail ri se (handler (updateStreamSplit tf raws).1) 0 k f
      hk (fun j hj => by simpa using hok j hj) (by simpa using hfail)
    cases hsig : (updateStreamSplit tf raws).2 with
    | none =>
      rw [bidi_streaming_sig_none tf ri handler raws se t hsig, heq]
      rfl
    | some e =>
      have hle : (sendLoopAux ri se 0 (handler (updateStreamSplit tf raws).1)).2.1 ≤ t := by
        rw [heq]
        exact hlate e hsig
      rw [bidi_streaming_sig_some_lose tf ri handler raws se t e hsig hle, heq]
      rfl

/-- Witness for C1: a concrete call whose update stream suffers a transport
receive failure while one response is still unsent: the call reports the
receive failure and nothing is sent. -/
theorem C1_server_result_first_failure_wins_witness :
    (bidi_streaming counterUpdateTryFrom counterResponseIntoRes
      (fun us => us.map fun u => CounterResponse.mk u.value)
      [Except.ok (TestReq.upd 1), Except.error ()]
      (fun _ => (none : Option Unit)) 0).2 =
      .error (RpcServerError.RecvError ()) :=
  ((C1_server_result_first_failure_wins counterUpdateTryFrom counterResponseIntoRes
      (fun us => us.map fun u => CounterResponse.mk u.value)
      [Except.ok (TestReq.upd 1), Except.error ()]
      (fun _ => (none : Option Unit)) 0).2.1
    (UpdateSigErr.RecvError ()) rfl (by decide)).1

/-- Claim C2: a server call whose handler yields N responses, whose transport
accepts every send and whose update-stream error watch never fires performs
exactly N sends, each response converted to the wire type, in the order
produced, and returns success. -/
theorem C2_server_sends_all_in_order
    (tf : Req → Option Update) (ri : Response → Res)
    (handler : List Update → List Response) (raws : List (Except RecvErr Req))
    (se : Nat → Option SendErr) (t : Nat)
    (hclean : (updateStreamSplit tf raws).2 = none)
    (hok : ∀ j < (handler (updateStreamSplit tf raws).1).length, se j = none) :
    (bidi_streaming tf ri handler raws se t).1 =
      (handler (updateStreamSplit tf raws).1).map ri ∧
    (bidi_streaming tf ri handler raws se t).1.length =
      (handler (updateStreamSplit tf raws).1).length ∧
    (bidi_streaming tf ri handler raws se t).2 = .ok () := by
  have heq := sendLoopAux_all_ok ri se (handler (updateStreamSplit tf raws).1) 0
    (fun j hj => by simpa using hok j hj)
  rw [bidi_streaming_sig_none tf ri handler raws se t hclean, heq]
  exact ⟨rfl, by simp, rfl⟩

/-- Witness for C2: a concrete clean run sending two responses in order. -/
theorem C2_server_sends_all_in_order_witness :
    (bidi_streaming counterUpdateTryFrom counterResponseIntoRes
      (fun us => us.map fun u => CounterResponse.mk u.value)
      ([Except.ok (TestReq.upd 1), Except.ok (TestReq.upd 2)] :
        List (Except Unit TestReq))
      (fun _ => (none : Option Unit)) 0).1 =
        [TestRes.pong 1, TestRes.pong 2] ∧
    (bidi_streaming counterUpdateTryFrom counterResponseIntoRes
      (fun us => us.map fun u => CounterResponse.mk u.value)
      ([Except.ok (TestReq.upd 1), Except.ok (TestReq.upd 2)] :
        List (Except Unit TestReq))
      (fun _ => (none : Option Unit)) 0).2 = .ok () := by
  have h := C2_server_sends_all_in_order counterUpdateTryFrom counterResponseIntoRes
    (fun us => us.map fun u => CounterResponse.mk u.value)
    ([Except.ok (TestReq.upd 1), Except.ok (TestReq.upd 2)] :
      List (Except Unit TestReq))
    (fun _ => (none : Option Unit)) 0 rfl (fun j _ => rfl)
  exact ⟨by rw [h.1]; rfl, h.2.2⟩

/-- Claim C8: a server call whose handler returns an empty response sequence
performs zero sends and returns success, provided the update-stream error
watch has not already fired, even when no update was received. -/
theorem C8_empty_response_sequence
    (tf : Req → Option Update) (ri : Response → Res)
    (handler : List Update → List Response) (raws : List (Except RecvErr Req))
    (se : Nat → Option SendErr) (t : Nat)
    (hempty : handler (updateStreamSplit tf raws).1 = [])
    (hnot : ∀ e : UpdateSigErr RecvErr, (updateStreamSplit tf raws).2 = some e → 0 < t) :
    bidi_streaming tf ri handler raws se t = ([], .ok ()) := by
  have hA : (sendLoopAux ri se 0 (handler (updateStreamSplit tf raws).1)) =
      (([] : List Res), 0, (.ok () : Except SendErr Unit)) := by
    rw [hempty]; rfl
  cases hsig : (updateStreamSplit tf raws).2 with
  | none =>
    rw [bidi_streaming_sig_none tf ri handler raws se t hsig, hA]
    rfl
  | some e =>
    have hle : (sendLoopAux ri se 0 (handler (updateStreamSplit tf raws).1)).2.1 ≤ t := by
      rw [hA]
      exact Nat.zero_le t
    rw [bidi_streaming_sig_some_lose tf ri handler raws se t e hsig hle, hA]
    rfl

/-- Witness for C8: a concrete call whose handler produces no responses: no
send occurs and the call succeeds even though the update stream carried an
inconvertible value (the watch fires only after the loop is done). -/
theorem C8_empty_response_sequence_witness :
    bidi_streaming counterUpdateTryFrom counterResponseIntoRes
      (fun _ => ([] : List CounterResponse))
      ([Except.ok (TestReq.other true)] : List (Except Unit TestReq))
      (fun _ => (none : Option Unit)) 1 = ([], .ok ()) :=
  C8_empty_response_sequence counterUpdateTryFrom counterResponseIntoRes
    (fun _ => ([] : List CounterResponse))
    ([Except.ok (TestReq.other true)] : List (Except Unit TestReq))
    (fun _ => (none : Option Unit)) 1 rfl (fun _ _ => Nat.one_pos)

/-- Claim C9: the error-watch branch of the server race is mapped
unconditionally to a failure result, so the call can return success only via
the response-sending branch: success implies every response was sent
successfully and the full converted response sequence was sent. -/
theorem C9_success_only_via_send_branch
    (tf : Req → Option Update) (ri : Response → Res)
    (handler : List Update → List Response) (raws : List (Except RecvErr Req))
    (se : Nat → Option SendErr) (t : Nat) :
    (∀ e, (updateStreamSplit tf raws).2 = some e →
        t < (sendLoopAux ri se 0 (handler (updateStreamSplit tf raws).1)).2.1 →
        ∃ err, (bidi_streaming tf ri handler raws se t).2 = .error err) ∧
    ((bidi_streaming tf ri handler raws se t).2 = .ok () →
      (∀ j < (handler (updateStreamSplit tf raws).1).length, se j = none) ∧
      (bidi_streaming tf ri handler raws se t).1 =
        (handler (updateStreamSplit tf raws).1).map ri) := by
  constructor
  · intro e hsig hw
    exact ⟨e.toServerError,
      (bidi_streaming_sig_some_win tf ri handler raws se t e hsig hw).symm ▸ rfl⟩
  · intro hok
    have hall : ∀ j < (handler (updateStreamSplit tf raws).1).length, se j = none := by
      cases hsig : (updateStreamSplit tf raws).2 with
      | none =>
        rw [bidi_streaming_sig_none tf ri handler raws se t hsig] at hok
        simp only [loopWrap_ok_iff] at hok
        have := (sendLoopAux_ok_iff ri se (handler (updateStreamSplit tf raws).1) 0).mp hok
        exact fun j hj => by simpa using this j hj
      | some e =>
        by_cases hw : t < (sendLoopAux ri se 0 (handler (updateStreamSplit tf raws).1)).2.1
        · rw [bidi_streaming_sig_some_win tf ri handler raws se t e hsig hw] at hok
          cases hok
        · rw [bidi_streaming_sig_some_lose tf ri handler raws se t e hsig
            (Nat.not_lt.mp hw)] at hok
          simp only [loopWrap_ok_iff] at hok
          have := (sendLoopAux_ok_iff ri se (handler (updateStreamSplit tf raws).1) 0).mp hok
          exact fun j hj => by simpa using this j hj
    have heq := sendLoopAux_all_ok ri se (handler (updateStreamSplit tf raws).1) 0
      (fun j hj => by simpa using hall j hj)
    refine ⟨hall, ?_⟩
    cases hsig : (updateStreamSplit tf raws).2 with
    | none =>
      rw [bidi_streaming_sig_none tf ri handler raws se t hsig, heq]
    | some e =>
      by_cases hw : t < (sendLoopAux ri se 0 (handler (updateStreamSplit tf raws).1)).2.1
      · rw [bidi_streaming_sig_some_win tf ri handler raws se t e hsig hw] at hok
        cases hok
      · rw [bidi_streaming_sig_some_lose tf ri handler raws se t e hsig
          (Nat.not_lt.mp hw), heq]

/-- Witness for C9: on a concrete successful run, success came with the full
converted response sequence sent. -/
theorem C9_success_only_via_send_branch_witness :
    (bidi_streaming counterUpdateTryFrom counterResponseIntoRes
      (fun us => us.map fun u => CounterResponse.mk u.value)
      ([Except.ok (TestReq.upd 7)] : List (Except Unit TestReq))
      (fun _ => (none : Option Unit)) 0).1 = [TestRes.pong 7] := by
  have h := (C9_success_only_via_send_branch counterUpdateTryFrom counterResponseIntoRes
    (fun us => us.map fun u => CounterResponse.mk u.value)
    ([Except.ok (TestReq.upd 7)] : List (Except Unit TestReq))
    (fun _ => (none : Option Unit)) 0).2 rfl
  rw [h.2]
  rfl

/-- Claim C3: a raw incoming value that fails typed conversion on the server
update path never appears in the typed update sequence handed to the handler
(the sequence holds only the conversions of the good elements before it) and
is surfaced only through the one-shot error signal with the distinct
unexpected-message kind; and if the raw stream ends cleanly with every
element converting, the signal never fires. -/
theorem C3_conversion_failure_isolated
    {Req Update RecvErr : Type} (tf : Req → Option Update)
    (pre post : List (Except RecvErr Req)) (r : Req)
    (hpre : ∀ x ∈ pre, ∃ q, x = .ok q ∧ (tf q).isSome) (hr : tf r = none)
    (raws : List (Except RecvErr Req))
    (hclean : ∀ x ∈ raws, ∃ q, x = .ok q ∧ (tf q).isSome) :
    updateStreamSplit tf (pre ++ .ok r :: post) =
      (pre.filterMap (okConv tf), some .UnexpectedUpdateMessage) ∧
    (updateStreamSplit tf raws).2 = none :=
  ⟨updateStreamSplit_unexpected tf pre r post hpre hr,
   by rw [updateStreamSplit_clean tf raws hclean]⟩

/-- Witness for C3: a concrete raw stream whose second element fails
conversion: the handler sees only the first update and the signal carries the
unexpected-message kind; a clean convertible stream produces no signal. -/
theorem C3_conversion_failure_isolated_witness :
    updateStreamSplit counterUpdateTryFrom
      (([Except.ok (TestReq.upd 1)] : List (Except Unit TestReq)) ++
        Except.ok (TestReq.other true) :: [Except.ok (TestReq.upd 2)]) =
      (([Except.ok (TestReq.upd 1)] :
          List (Except Unit TestReq)).filterMap (okConv counterUpdateTryFrom),
        some .UnexpectedUpdateMessage) ∧
    (updateStreamSplit counterUpdateTryFrom
      ([Except.ok (TestReq.upd 3)] : List (Except Unit TestReq))).2 = none :=
  C3_conversion_failure_isolated counterUpdateTryFrom
    ([Except.ok (TestReq.upd 1)] : List (Except Unit TestReq))
    [Except.ok (TestReq.upd 2)] (TestReq.other true)
    (by
      intro x hx
      simp only [List.mem_singleton] at hx
      subst hx
      exact ⟨TestReq.upd 1, rfl, rfl⟩)
    rfl
    [Except.ok (TestReq.upd 3)]
    (by
      intro x hx
      simp only [List.mem_singleton] at hx
      subst hx
      exact ⟨TestReq.upd 3, rfl, rfl⟩)

end ServerClaims

section ClientClaims

variable {Req Res Response M : Type} {OpenErr SendErr RecvErr : Type}

/-- Claim C4: a client bidi call whose substream open fails attempts no send
and returns the transport's open error unchanged, wrapped as the open-error
kind; a call whose initial send fails returns the send-error kind having
attempted only that one send. In both cases the call returns a single
immediate error result, not a sink/stream pair. -/
theorem C4_client_open_send_failures
    (mi : M → Req) (rtf : Res → Option Response) (msg : M) :
    (∀ (e : OpenErr) (so : Option SendErr),
        bidi mi rtf msg
          (Except.error e : Except OpenErr (List (Except RecvErr Res))) so =
          ([], .error (.Open e))) ∧
    (∀ (recv : List (Except RecvErr Res)) (e : SendErr),
        bidi mi rtf msg
          (Except.ok recv : Except OpenErr (List (Except RecvErr Res)))
          (some e) = ([mi msg], .error (.Send e))) :=
  ⟨fun _ _ => rfl, fun _ _ => rfl⟩

/-- Claim C5: on a successful client bidi call, the returned response
sequence has one element per received wire item, in the order received: a
wire value that converts yields that typed value as a success element, a wire
value that fails conversion yields a downcast-error element, and a transport
receive failure yields a receive-error element carrying the transport's
error. -/
theorem C5_client_response_elements
    (mi : M → Req) (rtf : Res → Option Response) (msg : M)
    (recv : List (Except RecvErr Res)) :
    (bidi mi rtf msg
      (Except.ok recv : Except OpenErr (List (Except RecvErr Res)))
      (none : Option SendErr)).2 = .ok (recv.map (mapItem rtf)) ∧
    (recv.map (mapItem rtf)).length = recv.length ∧
    (∀ (i : Nat) (m : Res) (r : Response), recv[i]? = some (.ok m) →
        rtf m = some r → (recv.map (mapItem rtf))[i]? = some (.ok r)) ∧
    (∀ (i : Nat) (m : Res), recv[i]? = some (.ok m) → rtf m = none →
        (recv.map (mapItem rtf))[i]? = some (.error .DowncastError)) ∧
    (∀ (i : Nat) (e : RecvErr), recv[i]? = some (.error e) →
        (recv.map (mapItem rtf))[i]? = some (.error (.RecvError e))) := by
  refine ⟨rfl, by simp, ?_, ?_, ?_⟩
  · intro i m r hi hr
    rw [List.getElem?_map, hi]
    simp [mapItem, hr]
  · intro i m hi hr
    rw [List.getElem?_map, hi]
    simp [mapItem, hr]
  · intro i e hi
    rw [List.getElem?_map, hi]
    simp [mapItem]

/-- Witness for C5: a concrete three-element incoming stream with one good
value, one inconvertible value and one receive failure maps to the three
corresponding elements in order. -/
theorem C5_client_response_elements_witness :
    (bidi startIntoReq counterResponseTryFrom (StartMsg.mk 0)
      (Except.ok [Except.ok (TestRes.pong 5), Except.ok (TestRes.status true),
          Except.error 9] : Except Unit (List (Except Nat TestRes)))
      (none : Option Unit)).2 =
      .ok [Except.ok (CounterResponse.mk 5), .error .DowncastError,
           .error (.RecvError 9)] ∧
    ([Except.ok (TestRes.pong 5), Except.ok (TestRes.status true),
        Except.error 9] : List (Except Nat TestRes)).map
      (mapItem counterResponseTryFrom) =
      [Except.ok (CounterResponse.mk 5), .error .DowncastError,
       .error (.RecvError 9)] ∧
    (([Except.ok (TestRes.pong 5), Except.ok (TestRes.status true),
        Except.error 9] : List (Except Nat TestRes)).map
      (mapItem counterResponseTryFrom))[1]? =
      some (.error .DowncastError) := by
  have h := @C5_client_response_elements TestReq TestRes CounterResponse StartMsg
    Unit Unit Nat startIntoReq counterResponseTryFrom (StartMsg.mk 0)
    [Except.ok (TestRes.pong 5), Except.ok (TestRes.status true), Except.error 9]
  exact ⟨by rw [h.1]; rfl, rfl, h.2.2.2.1 1 (TestRes.status true) rfl rfl⟩

/-- Claim C10: the client's downcast error element carries no payload — two
different wire values that both fail conversion produce the same unit-like
downcast-error element — while a transport receive failure's element carries
the transport's receive error value unchanged. -/
theorem C10_item_error_payloads
    (rtf : Res → Option Response) :
    (∀ m : Res, rtf m = none →
        mapItem rtf (Except.ok m : Except RecvErr Res) =
          .error .DowncastError) ∧
    (∀ m m' : Res, rtf m = none → rtf m' = none →
        mapItem rtf (Except.ok m : Except RecvErr Res) =
          mapItem rtf (Except.ok m' : Except RecvErr Res)) ∧
    (∀ e : RecvErr, mapItem rtf (Except.error e) = .error (.RecvError e)) := by
  refine ⟨?_, ?_, fun e => rfl⟩
  · intro m hm
    simp [mapItem, hm]
  · intro m m' hm hm'
    simp [mapItem, hm, hm']

/-- Witness for C10: two distinct inconvertible wire values yield the same
payload-free downcast element, and a receive failure keeps its error value. -/
theorem C10_item_error_payloads_witness :
    mapItem counterResponseTryFrom
      (Except.ok (TestRes.status true) : Except Nat TestRes) =
      .error .DowncastError ∧
    mapItem counterResponseTryFrom
      (Except.ok (TestRes.status true) : Except Nat TestRes) =
      mapItem counterResponseTryFrom
        (Except.ok (TestRes.status false) : Except Nat TestRes) ∧
    mapItem counterResponseTryFrom (Except.error 4) =
      .error (.RecvError 4) := by
  have h := @C10_item_error_payloads TestRes CounterResponse Nat counterResponseTryFrom
  exact ⟨h.1 (TestRes.status true) rfl,
    h.2.1 (TestRes.status true) (TestRes.status false) rfl rfl,
    h.2.2 4⟩

end ClientClaims

section DataModelClaims

/-- Claim C6: for every concrete update value of the bidi message type,
converting it into the wire message-set type and fallibly recovering it back
yields the same value, and likewise for every concrete response value. -/
theorem C6_update_response_roundtrip :
    (∀ u : CounterUpdate,
        counterUpdateTryFrom (counterUpdateIntoReq u) = some u) ∧
    (∀ r : CounterResponse,
        counterResponseTryFrom (counterResponseIntoRes r) = some r) :=
  ⟨fun _ => rfl, fun _ => rfl⟩

/-- Claim C7: with the degenerate configuration that reuses the request type
itself as the update (and response) type, every attempted conversion at
runtime fails: on the server update path any received value makes the typed
update sequence stay empty and the one-shot signal fire with the distinct
unexpected-message kind, and on the client response path every received wire
value becomes a downcast-error element; the framework functions accept the
configuration and process it like any other. -/
theorem C7_degenerate_self_type_conversions :
    (∀ (q : TestReq) (rest : List (Except Unit TestReq)),
        updateStreamSplit degenUpdateTryFrom (.ok q :: rest) =
          ([], some .UnexpectedUpdateMessage)) ∧
    (∀ m : TestRes,
        mapItem degenResponseTryFrom (Except.ok m : Except Unit TestRes) =
          .error .DowncastError) :=
  ⟨fun q rest => by simp [updateStreamSplit, degenUpdateTryFrom],
   fun m => rfl⟩

end DataModelClaims
